import Mathlib

/-!
Shallow embedding of `aws_whoami.py` (aws-whoami 1.2.0).

The embedding models the pure core of the script:

* `parseWhoami` embeds the descriptor-parsing part of `whoami`
  (lines 128-151): the ARN is split on its last `:` (Python
  `rsplit(':', 1)[1]`, whose `IndexError` on a colon-free string is
  modelled as `ParseError.MalformedDescriptor`), the resource on its
  first `/` (Python tuple unpacking of `split('/', 1)`, whose
  `ValueError` is again a parse error), and for `assumed-role` the rest
  on its last `/`.  SSO permission-set extraction (lines 144-151) is
  `ssoPermissionSetOf`.
* `skipLoop` / `afterPatternLoop` / `shouldSkipLookup` /
  `resolveAliases` embed the alias-suppression loop and the alias
  lookup (lines 153-171), including line 163's truthiness test of the
  possibly still-list-valued `disable_account_alias`; the boto
  pagination + exception is modelled as an
  `Except BotoException (List (List String))` input.
* `formatLines` / `format_whoami` embed `format_whoami` (lines 94-110).
  Python renders `None` as the string "None" via `str.format`, hence
  `pyStrOpt`; Python truthiness of `None`/`""` is `pyTruthy`.
  One divergence, irrelevant to the theorems below: Python's
  `p[0].upper() + p[1:]` raises on an empty hyphen-separated part of
  the principal type, while `capFirst` maps it to the empty string, and
  `Char.toUpper` only upcases ASCII letters.
-/

namespace AwsWhoami

/-- Split a character list at the first occurrence of `sep`:
`some (before, after)` with the separator dropped, `none` when `sep`
does not occur.  This is Python's `s.split(sep, 1)` restricted to the
two-element case. -/
def splitFirstList (sep : Char) : List Char → Option (List Char × List Char)
  | [] => none
  | c :: cs =>
    if c = sep then some ([], cs)
    else
      match splitFirstList sep cs with
      | none => none
      | some (a, b) => some (c :: a, b)

/-- Split a character list at the last occurrence of `sep`
(Python's `s.rsplit(sep, 1)` in the two-element case). -/
def splitLastList (sep : Char) (l : List Char) : Option (List Char × List Char) :=
  match splitFirstList sep l.reverse with
  | none => none
  | some (a, b) => some (b.reverse, a.reverse)

/-- String version of `splitFirstList`. -/
def splitFirstStr (sep : Char) (s : String) : Option (String × String) :=
  match splitFirstList sep s.data with
  | none => none
  | some (a, b) => some (String.mk a, String.mk b)

/-- String version of `splitLastList`. -/
def splitLastStr (sep : Char) (s : String) : Option (String × String) :=
  match splitLastList sep s.data with
  | none => none
  | some (a, b) => some (String.mk a, String.mk b)

/-- Python `s.split(sep)` (unbounded, single-character separator) on a
character list: split at every occurrence of `sep`; the empty list
yields one empty segment, like Python's `"".split(sep) == ['']`. -/
def segsOn (sep : Char) : List Char → List (List Char)
  | [] => [[]]
  | c :: cs =>
    if c = sep then [] :: segsOn sep cs
    else
      match segsOn sep cs with
      | [] => [[c]]
      | h :: t => (c :: h) :: t

/-- Python `s.split(sep)` for a string and a one-character separator. -/
def pySplitAll (sep : Char) (s : String) : List String :=
  (segsOn sep s.data).map String.mk

/-- Python `s.split(sep, 1)[1]`: everything after the first `sep`;
`none` models the `IndexError` when `sep` is absent. -/
def pySplitTail (sep : Char) (s : String) : Option String :=
  match splitFirstStr sep s with
  | none => none
  | some (_, b) => some b

/-- Python `s.rsplit(sep, 1)[0]`: everything before the last `sep`,
or the whole string when `sep` is absent (`rsplit` then returns the
one-element list `[s]`, and index `[0]` still succeeds). -/
def pyRsplitHead (sep : Char) (s : String) : String :=
  match splitLastStr sep s with
  | none => s
  | some (a, _) => a

/-- Python `s.startswith(pre)`: is `pre` a prefix of `s`?  (The
character-list implementation is used because it reduces inside the
kernel, unlike `String.startsWith`.) -/
def strStartsWith (s pre : String) : Bool :=
  pre.data.isPrefixOf s.data

/-- Python `s.endswith(suf)`: is `suf` a suffix of `s`? -/
def strEndsWith (s suf : String) : Bool :=
  suf.data.isSuffixOf s.data

/-- The parse-failure kind of the spec's error taxonomy; the Python
code raises `IndexError`/`ValueError` at the corresponding places. -/
inductive ParseError where
  | MalformedDescriptor
deriving DecidableEq, Repr

/-- The fields of the `sts.GetCallerIdentity` response that `whoami`
reads (lines 133-134). -/
structure StsResponse where
  Account : String
  Arn : String
  UserId : String
deriving DecidableEq, Repr

/-- The `WhoamiInfo` namedtuple (lines 32-42).  The Python field
`Type` is a reserved word in Lean and is rendered `PrincipalType`;
optional fields (`None` in Python) are `Option String`. -/
structure WhoamiInfo where
  Account : String
  AccountAliases : List String
  Arn : String
  PrincipalType : String
  Name : String
  RoleSessionName : Option String
  UserId : String
  Region : Option String
  SSOPermissionSet : Option String
deriving DecidableEq, Repr

/-- Lines 144-151: SSO permission-set extraction.
`data['Name'].split('_', 1)[1].rsplit('_', 1)[0]` inside
`try/except`, guarded by the principal type being `assumed-role` and
the name starting with `AWSReservedSSO`; the caught exception (the
`IndexError` of `split('_', 1)[1]` on an underscore-free name) yields
`None`. -/
def ssoPermissionSetOf (ty name : String) : Option String :=
  if ty == "assumed-role" && strStartsWith name "AWSReservedSSO" then
    match pySplitTail '_' name with
    | none => none
    | some rest => some (pyRsplitHead '_' rest)
  else none

/-- Line 136: `data['Arn'].rsplit(':', 1)[1]` — the resource is
everything after the last colon; `none` models the `IndexError` on a
colon-free ARN. -/
def arnResource (arn : String) : Option String :=
  match splitLastStr ':' arn with
  | none => none
  | some (_, res) => res

/-- Lines 128-151 of `whoami`: parse the caller-identity response (and
the configured region) into a `WhoamiInfo` with an empty alias list
(line 153 initialises `AccountAliases` to `[]` before the lookup). -/
def parseWhoami (resp : StsResponse) (region : Option String) :
    Except ParseError WhoamiInfo :=
  match arnResource resp.Arn with
  | none => .error .MalformedDescriptor
  | some res =>
    match splitFirstStr '/' res with
    | none => .error .MalformedDescriptor
    | some (ty, rest) =>
      if ty == "assumed-role" then
        match splitLastStr '/' rest with
        | none => .error .MalformedDescriptor
        | some (nm, sess) =>
          .ok ⟨resp.Account, [], resp.Arn, ty, nm, some sess,
               resp.UserId, region, ssoPermissionSetOf ty nm⟩
      else
        .ok ⟨resp.Account, [], resp.Arn, ty, rest, none,
             resp.UserId, region, ssoPermissionSetOf ty rest⟩

/-- The principal-type, name and session-name fields of a record, the
projection the parser theorems talk about. -/
def projTNS (w : WhoamiInfo) : String × String × Option String :=
  (w.PrincipalType, w.Name, w.RoleSessionName)

/-- The `disable_account_alias` argument of `whoami`: once the `main`
shell has normalised the environment variable it is either a boolean
or a list of patterns (lines 70-76), i.e. a tagged union. -/
inductive AliasConfig where
  | Disabled (b : Bool)
  | ConditionalSkip (patterns : List String)
deriving DecidableEq, Repr

/-- An exception out of the boto alias-listing call: a `ClientError`
carrying its (possibly missing) `Error.Code`, or any other exception.
Only a `ClientError` whose code is exactly `AccessDenied` is caught at
lines 169-171. -/
inductive BotoException where
  | clientError (errorCode : Option String)
  | otherException (msg : String)
deriving DecidableEq, Repr

/-- Lines 169-171: the exception is swallowed exactly when it is a
`ClientError` whose `Error.Code` is `AccessDenied`. -/
def isCaughtAccessDenied : BotoException → Bool
  | .clientError (some c) => c == "AccessDenied"
  | .clientError none => false
  | .otherException _ => false

/-- Lines 154-162: the pattern loop.  For each pattern in order: if
the account starts or ends with it, skip; else if it equals the name,
the ARN or the session name (`None` compares unequal to any string),
skip; otherwise continue with the next pattern. -/
def skipLoop (w : WhoamiInfo) : List String → Bool
  | [] => false
  | v :: vs =>
    if strStartsWith w.Account v || strEndsWith w.Account v then true
    else if v == w.Name || v == w.Arn || some v == w.RoleSessionName then true
    else skipLoop w vs

/-- One pattern's match condition, stated directly: it is the
disjunction the loop body tests. -/
def matchesPattern (w : WhoamiInfo) (v : String) : Bool :=
  strStartsWith w.Account v || strEndsWith w.Account v ||
    v == w.Name || v == w.Arn || some v == w.RoleSessionName

/-- The value of `disable_account_alias` after lines 154-162: a bool
is left alone (the `isinstance` guard skips the loop); for a pattern
list, a matching pattern rebinds the variable to `True` and breaks,
and when no pattern matches the variable still holds the original
list. -/
def afterPatternLoop (w : WhoamiInfo) : AliasConfig → AliasConfig
  | .Disabled b => .Disabled b
  | .ConditionalSkip ps =>
    if skipLoop w ps then .Disabled true else .ConditionalSkip ps

/-- Python truthiness of `disable_account_alias` as tested by
`if not disable_account_alias:` at line 163: a bool is itself, a list
is truthy iff non-empty. -/
def configTruthy : AliasConfig → Bool
  | .Disabled b => b
  | .ConditionalSkip ps => !ps.isEmpty

/-- Lines 154-163: the overall skip decision.  Note that when the
pattern loop falls through with no match, line 163 tests the
truthiness of the original (non-empty) list, so the lookup is skipped
for every non-empty pattern list whether or not any pattern
matched. -/
def shouldSkipLookup (w : WhoamiInfo) (cfg : AliasConfig) : Bool :=
  configTruthy (afterPatternLoop w cfg)

/-- Lines 164-171: drain the paginator, concatenating each page's
aliases in order; an `AccessDenied` `ClientError` is swallowed
(leaving the already-empty alias list), any other exception
propagates.  The paginator is modelled as either a full page list or
an exception. -/
def attemptAliasLookup (pages : Except BotoException (List (List String))) :
    Except BotoException (List String) :=
  match pages with
  | .ok ps => .ok ps.flatten
  | .error e => if isCaughtAccessDenied e then .ok [] else .error e

/-- Lines 153-171: the alias-resolution step over a parsed record.
`AccountAliases` starts at `[]` and is filled only when the lookup is
neither skipped nor denied. -/
def resolveAliases (w : WhoamiInfo) (cfg : AliasConfig)
    (lister : Except BotoException (List (List String))) :
    Except BotoException WhoamiInfo :=
  if shouldSkipLookup w cfg then .ok { w with AccountAliases := [] }
  else (attemptAliasLookup lister).map
    (fun aliases => { w with AccountAliases := aliases })

/-- Python's rendering of an optional string by `str.format`: `None`
prints as "None". -/
def pyStrOpt : Option String → String
  | none => "None"
  | some s => s

/-- Python truthiness of an optional string: `None` and `""` are
falsy. -/
def pyTruthy : Option String → Bool
  | none => false
  | some s => !(s == "")

/-- Python `p[0].upper() + p[1:]` on a hyphen-separated part (line
103); the empty part, on which Python would raise `IndexError`, is
mapped to itself. -/
def capFirst (p : String) : String :=
  match p.data with
  | [] => ""
  | c :: cs => String.mk (Char.toUpper c :: cs)

/-- Line 103: capitalise each hyphen-separated part of the principal
type and concatenate, e.g. "assumed-role" becomes "AssumedRole". -/
def typeLabel (ty : String) : String :=
  String.join ((pySplitAll '-' ty).map capFirst)

/-- Lines 95-108 of `format_whoami`: the (label, value) lines, in
order.  The Region line (line 99) is appended unconditionally, with a
missing region rendered as "None"; the SSO / principal line and the
session-name line are guarded by Python truthiness. -/
def formatLines (w : WhoamiInfo) : List (String × String) :=
  [("Account: ", w.Account)]
    ++ w.AccountAliases.map (fun a => ("", a))
    ++ [("Region: ", pyStrOpt w.Region)]
    ++ (if pyTruthy w.SSOPermissionSet then
          [("AWS SSO: ", pyStrOpt w.SSOPermissionSet)]
        else
          [(typeLabel w.PrincipalType ++ ": ", w.Name)])
    ++ (if pyTruthy w.RoleSessionName then
          [("RoleSessionName: ", pyStrOpt w.RoleSessionName)]
        else [])
    ++ [("UserId: ", w.UserId), ("Arn: ", w.Arn)]

/-- Python `s.ljust(n)`. -/
def ljustStr (s : String) (n : Nat) : String :=
  s ++ String.mk (List.replicate (n - s.length) ' ')

/-- Lines 109-110: right-pad every label to the longest label and join
the lines with newlines. -/
def format_whoami (w : WhoamiInfo) : String :=
  let lines := formatLines w
  let maxLen := (lines.map (fun l => l.1.length)).foldl Nat.max 0
  String.intercalate "\n" (lines.map (fun l => ljustStr l.1 maxLen ++ l.2))

/-! Helper lemmas about the split functions. -/

theorem mkData (s : String) : String.mk s.data = s := by
  cases s
  rfl

theorem dataAppend (a b : String) : (a ++ b).data = a.data ++ b.data := by
  cases a
  cases b
  rfl

theorem splitFirstList_not_mem {sep : Char} :
    ∀ {l : List Char}, sep ∉ l → splitFirstList sep l = none := by
  intro l
  induction l with
  | nil => intro _; rfl
  | cons c cs ih =>
    intro h
    rw [List.mem_cons, not_or] at h
    rw [splitFirstList, if_neg (fun hc => h.1 hc.symm), ih h.2]

theorem splitFirstList_append {sep : Char} :
    ∀ (l1 l2 : List Char), sep ∉ l1 →
      splitFirstList sep (l1 ++ sep :: l2) = some (l1, l2) := by
  intro l1
  induction l1 with
  | nil => intro l2 _; simp [splitFirstList]
  | cons c cs ih =>
    intro l2 h
    rw [List.mem_cons, not_or] at h
    rw [List.cons_append, splitFirstList, if_neg (fun hc => h.1 hc.symm),
      ih l2 h.2]

theorem splitFirstList_isSome {sep : Char} :
    ∀ {l : List Char}, sep ∈ l → (splitFirstList sep l).isSome = true := by
  intro l
  induction l with
  | nil => intro h; exact absurd h (List.not_mem_nil sep)
  | cons c cs ih =>
    intro h
    by_cases hc : c = sep
    · simp [splitFirstList, hc]
    · have hcs : sep ∈ cs := by
        rcases List.mem_cons.mp h with h1 | h2
        · exact absurd h1.symm hc
        · exact h2
      have := ih hcs
      rw [splitFirstList, if_neg hc]
      cases hs : splitFirstList sep cs with
      | none => rw [hs] at this; simp at this
      | some p => simp

theorem splitLastList_not_mem {sep : Char} {l : List Char} (h : sep ∉ l) :
    splitLastList sep l = none := by
  rw [splitLastList, splitFirstList_not_mem (by simpa using h)]

theorem splitLastList_append {sep : Char} (l1 l2 : List Char) (h : sep ∉ l2) :
    splitLastList sep (l1 ++ sep :: l2) = some (l1, l2) := by
  have hrev : (l1 ++ sep :: l2).reverse = l2.reverse ++ sep :: l1.reverse := by
    simp [List.reverse_append]
  rw [splitLastList, hrev,
    splitFirstList_append _ _ (by simpa using h)]
  simp

theorem splitFirstStr_of_data {sep : Char} {s : String} {l1 l2 : List Char}
    (hd : s.data = l1 ++ sep :: l2) (h : sep ∉ l1) :
    splitFirstStr sep s = some (String.mk l1, String.mk l2) := by
  rw [splitFirstStr, hd, splitFirstList_append _ _ h]

theorem splitLastStr_of_data {sep : Char} {s : String} {l1 l2 : List Char}
    (hd : s.data = l1 ++ sep :: l2) (h : sep ∉ l2) :
    splitLastStr sep s = some (String.mk l1, String.mk l2) := by
  rw [splitLastStr, hd, splitLastList_append _ _ h]

theorem splitLastStr_not_mem {sep : Char} {s : String} (h : sep ∉ s.data) :
    splitLastStr sep s = none := by
  rw [splitLastStr, splitLastList_not_mem h]

theorem ssoPermissionSetOf_user (name : String) :
    ssoPermissionSetOf "user" name = none := by
  rw [ssoPermissionSetOf]
  simp

theorem parseWhoami_user (name acct uid : String) (reg : Option String)
    (hc : ':' ∉ name.data) :
    parseWhoami ⟨acct, "arn:p:s:r:123:user/" ++ name, uid⟩ reg =
      .ok ⟨acct, [], "arn:p:s:r:123:user/" ++ name, "user", name, none,
           uid, reg, none⟩ := by
  have hd1 : ("arn:p:s:r:123:user/" ++ name).data
      = "arn:p:s:r:123".data ++ ':' :: ("user/".data ++ name.data) := by
    rw [dataAppend,
      show "arn:p:s:r:123:user/".data
        = "arn:p:s:r:123".data ++ ':' :: "user/".data from by decide]
    simp
  have hm1 : ':' ∉ "user/".data ++ name.data := by
    simp only [List.mem_append, not_or]
    exact ⟨by decide, hc⟩
  have hres : arnResource ("arn:p:s:r:123:user/" ++ name)
      = some (String.mk ("user/".data ++ name.data)) := by
    rw [arnResource, splitLastStr_of_data hd1 hm1]
  have hd2 : (String.mk ("user/".data ++ name.data)).data
      = "user".data ++ '/' :: name.data := by
    rw [show "user/".data = "user".data ++ ['/'] from by decide]
    simp
  have hsplit : splitFirstStr '/' (String.mk ("user/".data ++ name.data))
      = some ("user", name) := by
    rw [splitFirstStr_of_data hd2 (by decide), mkData, mkData]
  rw [parseWhoami]
  simp only [hres, hsplit]
  rw [if_neg (by decide), ssoPermissionSetOf_user]

theorem parseWhoami_assumed_role (role sess acct uid : String)
    (reg : Option String) (hcr : ':' ∉ role.data)
    (hcs : ':' ∉ sess.data) (hss : '/' ∉ sess.data) :
    parseWhoami
        ⟨acct, "arn:p:s:r:123:assumed-role/" ++ role ++ "/" ++ sess, uid⟩ reg =
      .ok ⟨acct, [], "arn:p:s:r:123:assumed-role/" ++ role ++ "/" ++ sess,
           "assumed-role", role, some sess, uid, reg,
           ssoPermissionSetOf "assumed-role" role⟩ := by
  have hd1 : ("arn:p:s:r:123:assumed-role/" ++ role ++ "/" ++ sess).data
      = "arn:p:s:r:123".data
          ++ ':' :: ("assumed-role/".data ++ (role.data ++ '/' :: sess.data)) := by
    rw [dataAppend, dataAppend, dataAppend,
      show "arn:p:s:r:123:assumed-role/".data
        = "arn:p:s:r:123".data ++ ':' :: "assumed-role/".data from by decide,
      show "/".data = ['/'] from by decide]
    simp
  have hm1 : ':' ∉ "assumed-role/".data ++ (role.data ++ '/' :: sess.data) := by
    simp only [List.mem_append, List.mem_cons, not_or]
    exact ⟨by decide, hcr, by decide, hcs⟩
  have hres : arnResource ("arn:p:s:r:123:assumed-role/" ++ role ++ "/" ++ sess)
      = some (String.mk
          ("assumed-role/".data ++ (role.data ++ '/' :: sess.data))) := by
    rw [arnResource, splitLastStr_of_data hd1 hm1]
  have hd2 : (String.mk
        ("assumed-role/".data ++ (role.data ++ '/' :: sess.data))).data
      = "assumed-role".data ++ '/' :: (role.data ++ '/' :: sess.data) := by
    rw [show "assumed-role/".data = "assumed-role".data ++ ['/'] from by decide]
    simp
  have hsplit : splitFirstStr '/'
        (String.mk ("assumed-role/".data ++ (role.data ++ '/' :: sess.data)))
      = some ("assumed-role", String.mk (role.data ++ '/' :: sess.data)) := by
    rw [splitFirstStr_of_data hd2 (by decide), mkData]
  have hd3 : (String.mk (role.data ++ '/' :: sess.data)).data
      = role.data ++ '/' :: sess.data := rfl
  have hlast : splitLastStr '/' (String.mk (role.data ++ '/' :: sess.data))
      = some (role, sess) := by
    rw [splitLastStr_of_data hd3 hss, mkData, mkData]
  rw [parseWhoami]
  simp only [hres, hsplit]
  rw [if_pos (by decide)]
  simp only [hlast]

theorem ssoPermissionSetOf_not_assumed (ty nm : String)
    (h : ty ≠ "assumed-role") : ssoPermissionSetOf ty nm = none := by
  rw [ssoPermissionSetOf, if_neg]
  simp [h]

theorem parseWhoami_ok_shape (resp : StsResponse) (reg : Option String)
    (w : WhoamiInfo) (h : parseWhoami resp reg = .ok w) :
    (w.RoleSessionName.isSome = true ↔ w.PrincipalType = "assumed-role")
    ∧ w.SSOPermissionSet = ssoPermissionSetOf w.PrincipalType w.Name := by
  cases hr : arnResource resp.Arn with
  | none =>
    simp only [parseWhoami, hr] at h
    exact Except.noConfusion h
  | some res =>
    simp only [parseWhoami, hr] at h
    cases hf : splitFirstStr '/' res with
    | none =>
      simp only [hf] at h
      exact Except.noConfusion h
    | some p =>
      obtain ⟨ty, rest⟩ := p
      simp only [hf] at h
      by_cases hty : (ty == "assumed-role") = true
      · rw [if_pos hty] at h
        cases hl : splitLastStr '/' rest with
        | none =>
          simp only [hl] at h
          exact Except.noConfusion h
        | some q =>
          obtain ⟨nm, sess⟩ := q
          simp only [hl] at h
          injection h with h'
          subst h'
          exact ⟨⟨fun _ => eq_of_beq hty, fun _ => rfl⟩, rfl⟩
      · rw [if_neg hty] at h
        injection h with h'
        subst h'
        refine ⟨⟨fun hs => by simp at hs, fun he => absurd (beq_of_eq he) hty⟩, rfl⟩

theorem arnResource_eq_none_iff (d : String) :
    arnResource d = none ↔ ':' ∉ d.data := by
  constructor
  · intro h hmem
    have h1 : (splitFirstList ':' d.data.reverse).isSome = true :=
      splitFirstList_isSome (by simpa using hmem)
    cases hopt : splitFirstList ':' d.data.reverse with
    | none => rw [hopt] at h1; simp at h1
    | some p =>
      obtain ⟨a, b⟩ := p
      rw [arnResource, splitLastStr, splitLastList, hopt] at h
      exact Option.noConfusion h
  · intro h
    rw [arnResource, splitLastStr_not_mem h]

theorem pyRsplitHead_no_sep (sep : Char) (s : String) (h : sep ∉ s.data) :
    pyRsplitHead sep s = s := by
  rw [pyRsplitHead, splitLastStr_not_mem h]

theorem ssoPermissionSetOf_no_underscore (ty name : String)
    (h : '_' ∉ name.data) : ssoPermissionSetOf ty name = none := by
  have htail : pySplitTail '_' name = none := by
    rw [pySplitTail, splitFirstStr, splitFirstList_not_mem h]
  rw [ssoPermissionSetOf, htail]
  split <;> rfl

theorem ssoPermissionSetOf_isSome (name : String)
    (hpre : strStartsWith name "AWSReservedSSO" = true) (hu : '_' ∈ name.data) :
    (ssoPermissionSetOf "assumed-role" name).isSome = true := by
  have h1 : (splitFirstList '_' name.data).isSome = true :=
    splitFirstList_isSome hu
  cases hopt : splitFirstList '_' name.data with
  | none => rw [hopt] at h1; simp at h1
  | some p =>
    obtain ⟨a, b⟩ := p
    have htail : pySplitTail '_' name = some (String.mk b) := by
      rw [pySplitTail, splitFirstStr, hopt]
    rw [ssoPermissionSetOf, if_pos (by simp [hpre]), htail]
    rfl

theorem boolSkipEq : ∀ (a b c d e r : Bool),
    (if (a || b) = true then true else if (c || d || e) = true then true else r)
      = (a || b || c || d || e || r) := by
  decide

theorem skipLoop_cons (w : WhoamiInfo) (v : String) (vs : List String) :
    skipLoop w (v :: vs) = (matchesPattern w v || skipLoop w vs) := by
  rw [skipLoop, matchesPattern]
  exact boolSkipEq _ _ _ _ _ _

theorem skipLoop_iff (w : WhoamiInfo) (ps : List String) :
    skipLoop w ps = true ↔ ∃ v ∈ ps, matchesPattern w v = true := by
  induction ps with
  | nil => simp [skipLoop]
  | cons v vs ih =>
    rw [skipLoop_cons, Bool.or_eq_true, ih]
    simp [List.mem_cons, or_and_right, exists_or]

/-! The claims. -/

/-- C1: for every well-formed descriptor of the form
`arn:p:s:r:123:user/alice`, `parseWhoami` yields principal type
"user", principal name "alice" and no session name; and for every
descriptor of the form `arn:p:s:r:123:assumed-role/MyRole/session1`
it yields principal type "assumed-role", name "MyRole" and session
name "session1" (the resource is split on the first `/` into type and
rest, and for assumed-role the rest is split on the last `/` into
name and session). -/
theorem c1_parse_user_and_assumed_role
    (name role sess acct uid : String) (reg : Option String) :
    (':' ∉ name.data → '/' ∉ name.data →
      (parseWhoami ⟨acct, "arn:p:s:r:123:user/" ++ name, uid⟩ reg).map projTNS
        = .ok ("user", name, none))
    ∧ (':' ∉ role.data → '/' ∉ role.data →
        ':' ∉ sess.data → '/' ∉ sess.data →
      (parseWhoami
          ⟨acct, "arn:p:s:r:123:assumed-role/" ++ role ++ "/" ++ sess, uid⟩
          reg).map projTNS
        = .ok ("assumed-role", role, some sess)) := by
  constructor
  · intro hc _
    rw [parseWhoami_user name acct uid reg hc]
    rfl
  · intro hcr _ hcs hss
    rw [parseWhoami_assumed_role role sess acct uid reg hcr hcs hss]
    rfl

/-- Witness for C1 at the spec's own examples. -/
theorem c1_witness :
    (parseWhoami ⟨"123456789012", "arn:p:s:r:123:user/" ++ "alice", "AIDA"⟩
        none).map projTNS = .ok ("user", "alice", none)
    ∧ (parseWhoami ⟨"123456789012",
          "arn:p:s:r:123:assumed-role/" ++ "MyRole" ++ "/" ++ "session1",
          "AIDA"⟩ none).map projTNS
        = .ok ("assumed-role", "MyRole", some "session1") :=
  ⟨(c1_parse_user_and_assumed_role "alice" "MyRole" "session1" "123456789012"
      "AIDA" none).1 (by decide) (by decide),
   (c1_parse_user_and_assumed_role "alice" "MyRole" "session1" "123456789012"
      "AIDA" none).2 (by decide) (by decide) (by decide) (by decide)⟩

/-- C2 (refuted by the code, the claim matching the spec's intent):
with the pattern list ["999"] and an account "123456789012" that
neither starts nor ends with "999", where "999" also equals neither
the name, the ARN nor the (absent) session name, the loop of lines
154-162 matches nothing — `skipLoop` is `false` — yet the lookup is
still SKIPPED: line 163's `if not disable_account_alias:` tests the
truthiness of the still-bound non-empty list, so even a lister that
would return an alias is ignored and the aliases stay empty.  The
claim's "if no pattern matches the lookup is attempted" is false of
the program for every non-empty pattern list. -/
theorem c2_nonmatching_patterns_still_skip :
    skipLoop
        ⟨"123456789012", [], "arn:aws:iam::123456789012:user/bob", "user",
         "bob", none, "AIDA", none, none⟩ ["999"] = false
    ∧ shouldSkipLookup
        ⟨"123456789012", [], "arn:aws:iam::123456789012:user/bob", "user",
         "bob", none, "AIDA", none, none⟩ (.ConditionalSkip ["999"]) = true
    ∧ resolveAliases
        ⟨"123456789012", [], "arn:aws:iam::123456789012:user/bob", "user",
         "bob", none, "AIDA", none, none⟩ (.ConditionalSkip ["999"])
        (.ok [["the-account-alias"]])
      = .ok ⟨"123456789012", [], "arn:aws:iam::123456789012:user/bob", "user",
             "bob", none, "AIDA", none, none⟩ :=
  ⟨rfl, rfl, rfl⟩

/-- C3: when the lookup is attempted, an error propagates iff it is
not an AccessDenied `ClientError`; an AccessDenied denial is swallowed
and yields the empty alias list, and a successful lister yields the
concatenated pages. -/
theorem c3_access_denied_recovery (w : WhoamiInfo) (e : BotoException)
    (pages : List (List String)) :
    resolveAliases w (.Disabled false) (.error e)
        = (if isCaughtAccessDenied e then .ok { w with AccountAliases := [] }
           else .error e)
    ∧ (resolveAliases w (.Disabled false) (.error e) = .error e
        ↔ isCaughtAccessDenied e = false)
    ∧ resolveAliases w (.Disabled false)
          (.error (.clientError (some "AccessDenied")))
        = .ok { w with AccountAliases := [] }
    ∧ resolveAliases w (.Disabled false) (.ok pages)
        = .ok { w with AccountAliases := pages.flatten } := by
  have h1 : resolveAliases w (.Disabled false) (.error e)
      = (if isCaughtAccessDenied e then .ok { w with AccountAliases := [] }
         else .error e) := by
    rw [resolveAliases,
      if_neg (by simp [shouldSkipLookup, afterPatternLoop, configTruthy]),
      attemptAliasLookup]
    by_cases hd : isCaughtAccessDenied e = true
    · rw [if_pos hd, if_pos hd]
      rfl
    · rw [if_neg hd, if_neg hd]
      rfl
  refine ⟨h1, ?_, rfl, rfl⟩
  rw [h1]
  by_cases hd : isCaughtAccessDenied e = true
  · rw [if_pos hd, hd]
    simp
  · rw [if_neg hd]
    simp only [Bool.not_eq_true] at hd
    simp [hd]

/-- C4 counterexample: the descriptor "x:user/alice" has only 2
colon-delimited segments, yet `parseWhoami` accepts it instead of
failing with `MalformedDescriptor` — the code splits on the last
colon rather than requiring 5 segments. -/
theorem c4_counterexample :
    (pySplitAll ':' "x:user/alice").length < 5
    ∧ parseWhoami ⟨"123", "x:user/alice", "uid"⟩ none =
        .ok ⟨"123", [], "x:user/alice", "user", "alice", none, "uid",
             none, none⟩ :=
  ⟨by decide, rfl⟩

/-- C4 (amended): the parser takes everything after the LAST colon as
the resource substring, and the colon step fails — with
`MalformedDescriptor` — exactly when the descriptor contains no colon
at all (not when it has fewer than 5 colon-delimited segments). -/
theorem c4_last_colon_resource (d a b : String) (resp : StsResponse)
    (reg : Option String) :
    (arnResource d = none ↔ ':' ∉ d.data)
    ∧ (arnResource resp.Arn = none →
        parseWhoami resp reg = .error .MalformedDescriptor)
    ∧ (':' ∉ b.data → arnResource (a ++ ":" ++ b) = some b) := by
  refine ⟨arnResource_eq_none_iff d, ?_, ?_⟩
  · intro h
    rw [parseWhoami, h]
  · intro hb
    have hd : (a ++ ":" ++ b).data = a.data ++ ':' :: b.data := by
      rw [dataAppend, dataAppend, show ":".data = [':'] from rfl]
      simp
    rw [arnResource, splitLastStr_of_data hd hb, mkData]

/-- Witness for C4's amended statement at concrete inputs. -/
theorem c4_witness :
    (arnResource "nocolon" = none ↔ ':' ∉ "nocolon".data)
    ∧ parseWhoami ⟨"123", "nocolon", "uid"⟩ none =
        .error .MalformedDescriptor
    ∧ arnResource ("arn:p" ++ ":" ++ "user/x") = some "user/x" :=
  ⟨(c4_last_colon_resource "nocolon" "arn:p" "user/x"
      ⟨"123", "nocolon", "uid"⟩ none).1,
   (c4_last_colon_resource "nocolon" "arn:p" "user/x"
      ⟨"123", "nocolon", "uid"⟩ none).2.1 rfl,
   (c4_last_colon_resource "nocolon" "arn:p" "user/x"
      ⟨"123", "nocolon", "uid"⟩ none).2.2 (by decide)⟩

/-- C5 counterexample: the accepted descriptor
`arn:p:s:r:123:assumed-role/Role/` yields a PRESENT but EMPTY session
name (`some ""`), contradicting "when present it is never the empty
string". -/
theorem c5_counterexample :
    parseWhoami ⟨"123", "arn:p:s:r:123:assumed-role/Role/", "uid"⟩ none =
      .ok ⟨"123", [], "arn:p:s:r:123:assumed-role/Role/", "assumed-role",
           "Role", some "", "uid", none, none⟩ := rfl

/-- C5 (amended): for every descriptor accepted by the parser, the
session name is present iff the principal type is "assumed-role"; the
"never the empty string" half of the claim fails (see the
counterexample), since the session segment may be empty. -/
theorem c5_session_iff_assumed_role (resp : StsResponse)
    (reg : Option String) (w : WhoamiInfo)
    (h : parseWhoami resp reg = .ok w) :
    w.RoleSessionName.isSome = true ↔ w.PrincipalType = "assumed-role" :=
  (parseWhoami_ok_shape resp reg w h).1

/-- Witness for C5's amended statement at a concrete accepted parse. -/
theorem c5_witness :
    (WhoamiInfo.RoleSessionName
        ⟨"123", [], "arn:p:s:r:123:assumed-role/MyRole/s1", "assumed-role",
         "MyRole", some "s1", "uid", none, none⟩).isSome = true
      ↔ (WhoamiInfo.PrincipalType
          ⟨"123", [], "arn:p:s:r:123:assumed-role/MyRole/s1", "assumed-role",
           "MyRole", some "s1", "uid", none, none⟩) = "assumed-role" :=
  c5_session_iff_assumed_role
    ⟨"123", "arn:p:s:r:123:assumed-role/MyRole/s1", "uid"⟩ none _ rfl

/-- C6 counterexample: for the assumed-role name "AWSReservedSSO_Solo"
the second split (on the last `_` of the remainder "Solo") finds no
separator, yet the permission set is `some "Solo"`, NOT absent as the
claim states. -/
theorem c6_counterexample :
    ('_' ∉ "Solo".data)
    ∧ parseWhoami
        ⟨"123", "arn:p:s:r:123:assumed-role/AWSReservedSSO_Solo/s1", "uid"⟩
        none =
      .ok ⟨"123", [], "arn:p:s:r:123:assumed-role/AWSReservedSSO_Solo/s1",
           "assumed-role", "AWSReservedSSO_Solo", some "s1", "uid", none,
           some "Solo"⟩ :=
  ⟨by decide, rfl⟩

/-- C6 (amended): only the FIRST split can fail to find its separator:
an underscore-free name leaves the permission set absent with no error
(the extraction is an `Option`, never an exception); the second split
never fails — on a separator-free remainder `rsplit('_', 1)[0]`
returns the whole remainder — so a prefixed name containing any
underscore always produces a present permission set. -/
theorem c6_first_split_only (ty name rest : String) :
    ('_' ∉ name.data → ssoPermissionSetOf ty name = none)
    ∧ ('_' ∉ rest.data → pyRsplitHead '_' rest = rest)
    ∧ (strStartsWith name "AWSReservedSSO" = true → '_' ∈ name.data →
        (ssoPermissionSetOf "assumed-role" name).isSome = true) :=
  ⟨ssoPermissionSetOf_no_underscore ty name, pyRsplitHead_no_sep '_' rest,
   fun hp hu => ssoPermissionSetOf_isSome name hp hu⟩

/-- Witness for C6's amended statement at concrete names. -/
theorem c6_witness :
    ssoPermissionSetOf "assumed-role" "AWSReservedSSONoSep" = none
    ∧ pyRsplitHead '_' "Solo" = "Solo"
    ∧ (ssoPermissionSetOf "assumed-role" "AWSReservedSSO_A_B").isSome
        = true :=
  ⟨(c6_first_split_only "assumed-role" "AWSReservedSSONoSep" "Solo").1
      (by decide),
   (c6_first_split_only "assumed-role" "AWSReservedSSONoSep" "Solo").2.1
      (by decide),
   (c6_first_split_only "assumed-role" "AWSReservedSSO_A_B" "Solo").2.2
      (by decide) (by decide)⟩

/-- C7: for every accepted descriptor whose principal type is not
"assumed-role", the SSO permission set is absent, even when the name
starts with "AWSReservedSSO". -/
theorem c7_non_assumed_role_no_sso (resp : StsResponse)
    (reg : Option String) (w : WhoamiInfo)
    (h : parseWhoami resp reg = .ok w)
    (hty : w.PrincipalType ≠ "assumed-role") :
    w.SSOPermissionSet = none := by
  rw [(parseWhoami_ok_shape resp reg w h).2]
  exact ssoPermissionSetOf_not_assumed _ _ hty

/-- Witness for C7: a `user` principal whose name starts with the
reserved prefix still gets no permission set. -/
theorem c7_witness :
    WhoamiInfo.SSOPermissionSet
      ⟨"123", [], "arn:p:s:r:123:user/AWSReservedSSO_Dev_x", "user",
       "AWSReservedSSO_Dev_x", none, "uid", none, none⟩ = none :=
  c7_non_assumed_role_no_sso
    ⟨"123", "arn:p:s:r:123:user/AWSReservedSSO_Dev_x", "uid"⟩ none _
    rfl (by decide)

/-- C8: the spec's SSO example — parsing
`arn:p:s:r:123:assumed-role/AWSReservedSSO_DevPermSet_abc123/session1`
yields the permission set "DevPermSet" (split on the first `_`,
discard the prefix token, split the remainder on the last `_`, keep
the left part). -/
theorem c8_sso_permission_set :
    parseWhoami
        ⟨"123",
         "arn:p:s:r:123:assumed-role/AWSReservedSSO_DevPermSet_abc123/session1",
         "uid"⟩ none =
      .ok ⟨"123", [],
           "arn:p:s:r:123:assumed-role/AWSReservedSSO_DevPermSet_abc123/session1",
           "assumed-role", "AWSReservedSSO_DevPermSet_abc123",
           some "session1", "uid", none, some "DevPermSet"⟩ := rfl

/-- C10: for an assumed-role name with the reserved prefix and exactly
one underscore, such as "AWSReservedSSO_X", the permission set is
`some "X"` (the substring after that underscore) rather than absent:
the rsplit on the last `_` returns the whole remainder when it finds
no separator. -/
theorem c10_single_underscore_sso :
    parseWhoami
        ⟨"123", "arn:p:s:r:123:assumed-role/AWSReservedSSO_X/session", "uid"⟩
        none =
      .ok ⟨"123", [], "arn:p:s:r:123:assumed-role/AWSReservedSSO_X/session",
           "assumed-role", "AWSReservedSSO_X", some "session", "uid", none,
           some "X"⟩ := rfl

/-- C9 counterexample: a record with an ABSENT region still gets a
Region line in the plain-text rendering (valued "None"), contradicting
"when region is absent, no Region line appears". -/
theorem c9_counterexample :
    (WhoamiInfo.Region
      ⟨"123456789012", [], "arn:aws:iam::123456789012:user/bob", "user",
       "bob", none, "AIDAXXX", none, none⟩) = none
    ∧ formatLines
        ⟨"123456789012", [], "arn:aws:iam::123456789012:user/bob", "user",
         "bob", none, "AIDAXXX", none, none⟩
      = [("Account: ", "123456789012"), ("Region: ", "None"),
         ("User: ", "bob"), ("UserId: ", "AIDAXXX"),
         ("Arn: ", "arn:aws:iam::123456789012:user/bob")] :=
  ⟨rfl, rfl⟩

/-- C9 (amended): the Region line is emitted for EVERY record — line
99 appends it unconditionally, rendering an absent region as "None" —
while the rest of the fixed order (Account, aliases, Region, SSO or
principal line, session name if present, user id, ARN) is as
stated. -/
theorem c9_region_line_always (w : WhoamiInfo) :
    ("Region: ", pyStrOpt w.Region) ∈ formatLines w
    ∧ pyStrOpt none = "None" := by
  constructor
  · simp [formatLines]
  · rfl

end AwsWhoami
